import Mathlib

/-!
Verification development for the near-creative-engine repository.

Each contract module is embedded shallowly: persistent key-value collections
(`LookupMap`, `UnorderedMap`, `HashMap`) become functions `κ → Option ν`,
`Vector`/`Vec` become `List`, NEAR/Solana/FVM account ids become `String`/`Nat`,
`u8`/`u64` become `Nat`, and `f32`/`f64` become `ℚ` (the embedding-generator
module uses `ℝ` where the source applies `sin`/`sqrt`).  Host-environment reads
(`env::predecessor_account_id`, `env::block_timestamp`, `Clock::get`) become
explicit parameters.  A fallible contract method becomes a function returning
`Except`; on the blockchain an aborted (`require!`/`assert!`/panic) transaction
reverts all state writes, which `applyTx` makes explicit.
-/

/-- Lookup-map insertion: later inserts shadow earlier ones. -/
def mapInsert {α β : Type} [DecidableEq α] (m : α → Option β) (k : α) (v : β) :
    α → Option β :=
  fun k' => if k' = k then some v else m k'

/-- Transactional application of a fallible state-mutating call: an aborted
transaction leaves the persisted state unchanged (host-VM revert semantics). -/
def applyTx {σ ε α : Type} (r : Except ε (σ × α)) (s : σ) : σ :=
  match r with
  | .ok (s', _) => s'
  | .error _ => s

namespace CrossChainAI

/-! Embedding of `src/contracts/cross-chain-ai/src/lib.rs` (NEAR contract
`CrossChainAIML`). -/

structure InferenceResult where
  prediction : String
  confidence_score : ℚ
  model_name : String
  processing_time_ms : Nat
  input_hash : String
  output_hash : String
deriving DecidableEq, Repr

structure DataStream where
  stream_id : String
  creator : String
  source_chain : String
  target_chain : String
  ipfs_hash : String
  encrypted_data : List Nat
  timestamp : Nat
  epoch : Nat
  active : Bool
  metadata : String → Option String

structure AIDataPacket where
  packet_id : String
  stream_id : String
  data_type : String
  ai_data : List Nat
  signature : List Nat
  confidence : Nat
  model_version : String
  timestamp : Nat
  inference_result : InferenceResult
deriving DecidableEq, Repr

structure BiometricData where
  fingerprint_hash : String
  facial_recognition_hash : String
  voice_pattern_hash : String
  behavioral_pattern_hash : String
  encrypted_biometric_data : List Nat
deriving DecidableEq, Repr

structure EmotionalMetadata where
  emotion_type : String
  intensity : Nat
  vector_hash : String
  merkle_root : String
  tags : List String
  timestamp : Nat
  biometric_data : Option BiometricData
deriving DecidableEq, Repr

structure GradientUpdate where
  participant : String
  gradient_data : List Nat
  local_loss : ℚ
  update_timestamp : Nat
  differential_privacy_noise : ℚ
deriving DecidableEq, Repr

structure FederatedLearningCoord where
  round_id : Nat
  participants : List String
  model_parameters : List Nat
  gradient_updates : List GradientUpdate
  aggregation_method : String
  privacy_budget : ℚ
  convergence_threshold : ℚ
deriving DecidableEq, Repr

structure CrossChainAIML where
  data_streams : String → Option DataStream
  ai_data_packets : String → Option AIDataPacket
  emotional_metadata : String → Option EmotionalMetadata
  authorized_bridges : String → Option Bool
  ai_oracles : String → Option Bool
  active_stream_ids : List String
  stream_counter : Nat
  chain_ids : String → Option String

/-- `CrossChainAIML::new`: five chain-name → chain-id insertions into a fresh
lookup map, all other collections empty. -/
def CrossChainAIML.new : CrossChainAIML where
  data_streams := fun _ => none
  ai_data_packets := fun _ => none
  emotional_metadata := fun _ => none
  authorized_bridges := fun _ => none
  ai_oracles := fun _ => none
  active_stream_ids := []
  stream_counter := 0
  chain_ids :=
    mapInsert (mapInsert (mapInsert (mapInsert (mapInsert
      (fun _ => none) "filecoin" "314") "near" "397") "solana" "501")
      "ethereum" "1") "polygon" "137"

/-- `create_data_stream`: seven `require!` checks, then insert the stream,
push its id and bump the counter.  The fresh per-stream metadata `LookupMap`
starts empty. -/
def create_data_stream (c : CrossChainAIML) (caller : String) (now : Nat)
    (stream_id source_chain target_chain ipfs_hash : String)
    (encrypted_data : List Nat) (epoch : Nat) :
    Except String (CrossChainAIML × String) :=
  if stream_id.isEmpty then .error "Stream ID required"
  else if source_chain.isEmpty then .error "Source chain required"
  else if target_chain.isEmpty then .error "Target chain required"
  else if ipfs_hash.isEmpty then .error "IPFS hash required"
  else if (c.chain_ids source_chain).isNone then .error "Invalid source chain"
  else if (c.chain_ids target_chain).isNone then .error "Invalid target chain"
  else if source_chain = target_chain then .error "Source and target must differ"
  else
    let stream : DataStream :=
      { stream_id := stream_id, creator := caller,
        source_chain := source_chain, target_chain := target_chain,
        ipfs_hash := ipfs_hash, encrypted_data := encrypted_data,
        timestamp := now, epoch := epoch, active := true,
        metadata := fun _ => none }
    .ok ({ c with
            data_streams := mapInsert c.data_streams stream_id stream,
            active_stream_ids := c.active_stream_ids ++ [stream_id],
            stream_counter := c.stream_counter + 1 },
         stream_id)

/-- `process_ai_data`: validation `require!`s, stream existence/activity,
caller authorization, then a single insert of the packet built from the
caller-supplied fields and the block timestamp. -/
def process_ai_data (c : CrossChainAIML) (caller : String) (now : Nat)
    (packet_id stream_id data_type : String)
    (ai_data signature : List Nat) (confidence : Nat) (model_version : String)
    (inference_result : InferenceResult) :
    Except String (CrossChainAIML × Bool) :=
  if packet_id.isEmpty then .error "Packet ID required"
  else if stream_id.isEmpty then .error "Stream ID required"
  else if data_type.isEmpty then .error "Data type required"
  else if ¬(confidence > 0 ∧ confidence ≤ 100) then .error "Confidence must be 1-100"
  else if model_version.isEmpty then .error "Model version required"
  else
    match c.data_streams stream_id with
    | none => .error "Stream does not exist"
    | some stream =>
      if ¬stream.active then .error "Stream is not active"
      else if ¬(caller = stream.creator ∨ (c.authorized_bridges caller).getD false) then
        .error "Unauthorized caller"
      else
        let packet : AIDataPacket :=
          { packet_id := packet_id, stream_id := stream_id,
            data_type := data_type, ai_data := ai_data, signature := signature,
            confidence := confidence, model_version := model_version,
            timestamp := now, inference_result := inference_result }
        .ok ({ c with ai_data_packets := mapInsert c.ai_data_packets packet_id packet },
             true)

/-- `coordinate_federated_learning`: validation plus oracle check, then it
*returns* a `FederatedLearningCoord` with an empty `gradient_updates` list
without writing anything to contract storage. -/
def coordinate_federated_learning (c : CrossChainAIML) (caller : String)
    (round_id : Nat) (participants : List String) (model_parameters : List Nat)
    (aggregation_method : String) (privacy_budget convergence_threshold : ℚ) :
    Except String (CrossChainAIML × FederatedLearningCoord) :=
  if ¬(participants.length > 0) then .error "Participants required"
  else if ¬(privacy_budget > 0) then .error "Privacy budget required"
  else if ¬(convergence_threshold > 0) then .error "Convergence threshold required"
  else if ¬((c.ai_oracles caller).getD false) then
    .error "Only AI oracles can coordinate federated learning"
  else
    .ok (c, { round_id := round_id, participants := participants,
              model_parameters := model_parameters, gradient_updates := [],
              aggregation_method := aggregation_method,
              privacy_budget := privacy_budget,
              convergence_threshold := convergence_threshold })

/-- `submit_gradient_update`: builds a `GradientUpdate` local value, logs it,
and returns `true`; no field of `self` is written. -/
def submit_gradient_update (c : CrossChainAIML) (caller : String) (now : Nat)
    (_round_id : Nat) (gradient_data : List Nat)
    (local_loss differential_privacy_noise : ℚ) :
    Except String (CrossChainAIML × Bool) :=
  let _gradient_update : GradientUpdate :=
    { participant := caller, gradient_data := gradient_data,
      local_loss := local_loss, update_timestamp := now,
      differential_privacy_noise := differential_privacy_noise }
  .ok (c, true)

/-- View `get_ai_data_packet`. -/
def get_ai_data_packet (c : CrossChainAIML) (packet_id : String) :
    Option AIDataPacket :=
  c.ai_data_packets packet_id

/-- View `get_stream_data`. -/
def get_stream_data (c : CrossChainAIML) (stream_id : String) :
    Option DataStream :=
  c.data_streams stream_id

/-- View `get_active_streams_count`. -/
def get_active_streams_count (c : CrossChainAIML) : Nat :=
  c.active_stream_ids.length

end CrossChainAI

namespace Governance

/-! Embedding of `src/contracts/near/soulbound-ai-governance/src/lib.rs`
(NEAR contract `SoulboundAIGovernance`). -/

structure TokenMetadata where
  title : String
  description : String
  media : String
  media_hash : List Nat
  copies : Nat
  issued_at : Nat
  expires_at : Option Nat
  starts_at : Option Nat
  updated_at : Option Nat
  extra : String
deriving DecidableEq, Repr

structure AIContribution where
  contribution_type : String
  model_id : String
  data_hash : List Nat
  accuracy_score : ℚ
  timestamp : Nat
  chain : String
  reward_points : Nat
deriving DecidableEq, Repr

inductive VoteType where
  | For
  | Against
  | Abstain
deriving DecidableEq, Repr

structure AIGovernanceVote where
  voter_token_id : String
  proposal_id : String
  vote_type : VoteType
  ai_confidence : ℚ
  reasoning : String
  biometric_verification : List Nat
  timestamp : Nat
deriving DecidableEq, Repr

inductive ProposalType where
  | AIGovernance
  | DataPrivacy
  | CrossChainIntegration
  | FederatedLearning
  | EthicalAI
  | CommunityDAO
deriving DecidableEq, Repr

inductive ProposalStatus where
  | Active
  | Passed
  | Rejected
  | Executed
  | Cancelled
deriving DecidableEq, Repr

structure GovernanceProposal where
  proposal_id : String
  title : String
  description : String
  proposal_type : ProposalType
  creator : String
  ai_model_requirements : List String
  ethical_guidelines : List String
  voting_period : Nat
  execution_delay : Nat
  votes_for : Nat
  votes_against : Nat
  votes_abstain : Nat
  ai_consensus_score : ℚ
  status : ProposalStatus
  created_at : Nat
  executed_at : Option Nat
deriving DecidableEq, Repr

structure PerformanceMetrics where
  precision : ℚ
  «recall» : ℚ
  f1_score : ℚ
  training_accuracy : ℚ
  validation_accuracy : ℚ
  test_accuracy : ℚ
  ethical_compliance : Nat
deriving DecidableEq, Repr

structure AIModel where
  model_id : String
  model_type : String
  version : String
  accuracy : ℚ
  ethical_score : Nat
  training_data_hash : List Nat
  model_hash : List Nat
  creator : String
  approved : Bool
  federated_participants : List String
  performance_metrics : PerformanceMetrics
deriving DecidableEq, Repr

structure FederatedUpdate where
  update_id : String
  model_id : String
  participant_id : String
  gradient_update : List Nat
  local_accuracy : ℚ
  data_points : Nat
  timestamp : Nat
  verified : Bool
  consensus_score : ℚ
deriving DecidableEq, Repr

/-- `CrossChainActivity`; the per-activity `HashMap<String, String>` metadata
becomes a lookup function. -/
structure CrossChainActivity where
  chain : String
  activity_type : String
  tx_hash : String
  block_height : Nat
  timestamp : Nat
  metadata : String → Option String

/-- `SoulboundData`; the `cross_chain_activity` `HashMap` becomes a lookup
function. -/
structure SoulboundData where
  biometric_hash : List Nat
  ai_contributions : List AIContribution
  reputation_score : Nat
  trust_level : Nat
  governance_participation : Nat
  data_quality_score : ℚ
  ethical_alignment : Nat
  cross_chain_activity : String → Option CrossChainActivity

/-- Contract state.  `ai_governance_votes` is kept as an association list so
that `calculate_ai_consensus`, which iterates over the whole vote map, can be
embedded; a fresh key is consed on the front (inserts are guarded by a
`contains_key` check, so no key is ever inserted twice). -/
structure SoulboundAIGovernance where
  owner : String
  total_supply : Nat
  token_metadata : String → Option TokenMetadata
  token_owners : String → Option String
  account_tokens : String → Option (List String)
  soulbound_data : String → Option SoulboundData
  ai_governance_votes : List (String × AIGovernanceVote)
  proposals : String → Option GovernanceProposal
  active_proposals : List String
  ai_models : String → Option AIModel
  federated_updates : String → Option FederatedUpdate

/-- `calculate_data_quality`: mean accuracy times `min(total_rewards/100, 1)`. -/
def calculate_data_quality (contributions : List AIContribution) : ℚ :=
  if contributions.isEmpty then 0
  else
    let total_accuracy : ℚ := (contributions.map (·.accuracy_score)).sum
    let total_rewards : Nat := (contributions.map (·.reward_points)).sum
    (total_accuracy / contributions.length) * min ((total_rewards : ℚ) / 100) 1

/-- `calculate_ai_consensus`: the source loops over all stored votes, summing
`ai_confidence` and counting the votes whose `proposal_id` matches; filtering
first and then summing/counting is the same accumulation. -/
def calculate_ai_consensus (votes : List (String × AIGovernanceVote))
    (proposal_id : String) : ℚ :=
  let matching := votes.filter (fun v => v.2.proposal_id = proposal_id)
  if matching.length > 0 then
    (matching.map (·.2.ai_confidence)).sum / matching.length
  else 0

/-- `record_ai_contribution`: owner check, then push the contribution, add its
reward points, and recompute the data-quality score. -/
def record_ai_contribution (g : SoulboundAIGovernance) (caller : String)
    (token_id : String) (contribution : AIContribution) :
    Except String (SoulboundAIGovernance × Unit) :=
  if ¬(g.token_owners token_id = some caller) then .error "Not token owner"
  else
    match g.soulbound_data token_id with
    | none => .error "Soulbound data not found"
    | some sd =>
      let contributions := sd.ai_contributions ++ [contribution]
      let sd' := { sd with
        ai_contributions := contributions,
        reputation_score := sd.reputation_score + contribution.reward_points,
        data_quality_score := calculate_data_quality contributions }
      .ok ({ g with soulbound_data := mapInsert g.soulbound_data token_id sd' }, ())

/-- `vote_on_proposal`.  The source inserts the vote, bumps the matching tally
bucket, recomputes the consensus score over the updated vote map, writes the
proposal back, and bumps the voter's `governance_participation`; the
`expect("Soulbound data not found")` panic after the proposal write reverts the
whole transaction on NEAR, so it is checked before committing here. -/
def vote_on_proposal (g : SoulboundAIGovernance) (caller : String) (now : Nat)
    (token_id proposal_id : String) (vote_type : VoteType) (ai_confidence : ℚ)
    (reasoning : String) (biometric_verification : List Nat) :
    Except String (SoulboundAIGovernance × Unit) :=
  if ¬(g.token_owners token_id = some caller) then .error "Not token owner"
  else
    match g.proposals proposal_id with
    | none => .error "Proposal not found"
    | some proposal =>
      if ¬(proposal.status = ProposalStatus.Active) then .error "Proposal not active"
      else if ¬(now < proposal.created_at + proposal.voting_period) then
        .error "Voting period ended"
      else if (g.ai_governance_votes.lookup (token_id ++ "_" ++ proposal_id)).isSome then
        .error "Already voted"
      else
          match g.soulbound_data token_id with
          | none => .error "Soulbound data not found"
          | some sd =>
            let vote : AIGovernanceVote :=
              { voter_token_id := token_id, proposal_id := proposal_id,
                vote_type := vote_type, ai_confidence := ai_confidence,
                reasoning := reasoning,
                biometric_verification := biometric_verification,
                timestamp := now }
            let votes' := (token_id ++ "_" ++ proposal_id, vote) :: g.ai_governance_votes
            let proposal' :=
              match vote_type with
              | .For => { proposal with votes_for := proposal.votes_for + 1 }
              | .Against => { proposal with votes_against := proposal.votes_against + 1 }
              | .Abstain => { proposal with votes_abstain := proposal.votes_abstain + 1 }
            let proposal'' :=
              { proposal' with
                ai_consensus_score := calculate_ai_consensus votes' proposal_id }
            let sd' := { sd with
              governance_participation := sd.governance_participation + 1 }
            .ok ({ g with
                    ai_governance_votes := votes',
                    proposals := mapInsert g.proposals proposal_id proposal'',
                    soulbound_data := mapInsert g.soulbound_data token_id sd' }, ())

/-- `record_cross_chain_activity`: owner check, then insert the activity under
the key `"{chain}_{tx_hash}"`. -/
def record_cross_chain_activity (g : SoulboundAIGovernance) (caller : String)
    (now : Nat) (token_id chain activity_type tx_hash : String)
    (block_height : Nat) (metadata : String → Option String) :
    Except String (SoulboundAIGovernance × Unit) :=
  if ¬(g.token_owners token_id = some caller) then .error "Not token owner"
  else
    match g.soulbound_data token_id with
    | none => .error "Soulbound data not found"
    | some sd =>
      let activity : CrossChainActivity :=
        { chain := chain, activity_type := activity_type, tx_hash := tx_hash,
          block_height := block_height, timestamp := now, metadata := metadata }
      let sd' := { sd with
        cross_chain_activity :=
          mapInsert sd.cross_chain_activity
            (activity.chain ++ "_" ++ activity.tx_hash) activity }
      .ok ({ g with soulbound_data := mapInsert g.soulbound_data token_id sd' }, ())

/-- View `get_proposal`. -/
def get_proposal (g : SoulboundAIGovernance) (proposal_id : String) :
    Option GovernanceProposal :=
  g.proposals proposal_id

end Governance

namespace FixedNft

/-! Embedding of `src/contracts/src/lib_fixed.rs` (fixed NEAR soulbound NFT
contract). -/

structure EmotionData where
  primary_emotion : String
  confidence : ℚ
  secondary_emotions : List (String × ℚ)
  arousal : ℚ
  valence : ℚ
deriving DecidableEq, Repr

structure BiometricData where
  biometric_hash : String
  emotion_data : EmotionData
  quality_score : ℚ
  device_id : String
  timestamp : Nat
  verification_method : String
deriving DecidableEq, Repr

structure EmotionRecord where
  timestamp : Nat
  emotion_data : EmotionData
  context : String
deriving DecidableEq, Repr

structure Token where
  owner_id : String
deriving DecidableEq, Repr

structure TokenMetadata where
  title : Option String
  description : Option String
  media : Option String
  media_hash : Option (List Nat)
  copies : Option Nat
  issued_at : Option Nat
  expires_at : Option Nat
  starts_at : Option Nat
  updated_at : Option Nat
  extra : Option String
  reference : Option String
  reference_hash : Option (List Nat)
deriving DecidableEq, Repr

structure NFTContractMetadata where
  spec : String
  name : String
  symbol : String
  icon : Option String
  base_uri : Option String
  reference : Option String
  reference_hash : Option (List Nat)
deriving DecidableEq, Repr

structure Contract where
  owner_id : String
  tokens_per_owner : String → Option (List String)
  tokens_by_id : String → Option Token
  token_metadata_by_id : String → Option TokenMetadata
  metadata : Option NFTContractMetadata
  biometric_data : String → Option BiometricData
  emotion_history : String → Option (List EmotionRecord)

/-- `UnorderedSet::insert` on a token set kept as a duplicate-free list. -/
def setInsert (s : List String) (x : String) : List String :=
  if x ∈ s then s else s ++ [x]

/-- `internal_add_token_to_owner`. -/
def internal_add_token_to_owner (c : Contract) (owner_id token_id : String) :
    Contract :=
  let tokens_set := (c.tokens_per_owner owner_id).getD []
  { c with tokens_per_owner :=
      mapInsert c.tokens_per_owner owner_id (setInsert tokens_set token_id) }

/-- Stand-in for Rust's `{:.2}` float formatting used only inside generated
description strings (no claim depends on the rendered digits): the value
rounded to two decimals, printed as `⌊100q⌉/100`. -/
def fmt2 (q : ℚ) : String :=
  let n : Int := round (q * 100)
  let m := n.natAbs
  (if n < 0 then "-" else "") ++ toString (m / 100) ++ "." ++
    (if m % 100 < 10 then "0" else "") ++ toString (m % 100)

/-- `nft_mint`: asserts `quality_score >= 0.7`, builds the biometric record,
emotion record and metadata, then `internal_mint` (token must be fresh)
followed by the biometric/emotion-history inserts. -/
def nft_mint (c : Contract) (now : Nat) (token_id receiver_id : String)
    (emotion_data : EmotionData) (quality_score : ℚ) (biometric_hash : String) :
    Except String (Contract × Token) :=
  if ¬(quality_score ≥ 7/10) then
    .error ("Biometric quality too low: " ++ fmt2 quality_score)
  else
    let biometric : BiometricData :=
      { biometric_hash := biometric_hash, emotion_data := emotion_data,
        quality_score := quality_score, device_id := "emotiv_epoc_x",
        timestamp := now, verification_method := "AI-Enhanced" }
    let emotion_record : EmotionRecord :=
      { timestamp := now, emotion_data := emotion_data, context := "Minting" }
    let md : TokenMetadata :=
      { title := some ("Biometric Soulbound Token #" ++ token_id),
        description := some
          ("AI-verified biometric authentication token. Primary emotion: "
            ++ emotion_data.primary_emotion ++ " (confidence: "
            ++ fmt2 (emotion_data.confidence * 100) ++ "%)"),
        media := none, media_hash := none, copies := some 1,
        issued_at := some now, expires_at := none, starts_at := some now,
        updated_at := some now,
        extra := some ("biometric_hash:" ++ biometric_hash),
        reference := none, reference_hash := none }
    -- internal_mint
    if (c.tokens_by_id token_id).isSome then .error "Token already exists"
    else
      let token : Token := { owner_id := receiver_id }
      let c := { c with tokens_by_id := mapInsert c.tokens_by_id token_id token }
      let c := internal_add_token_to_owner c receiver_id token_id
      let c := { c with
        token_metadata_by_id := mapInsert c.token_metadata_by_id token_id md }
      let c := { c with
        biometric_data := mapInsert c.biometric_data token_id biometric }
      let c := { c with
        emotion_history := mapInsert c.emotion_history token_id [emotion_record] }
      .ok (c, token)

/-- `nft_transfer`: unconditionally `env::panic_str("Soulbound tokens are
non-transferable")`. -/
def nft_transfer (_c : Contract) (_receiver_id _token_id : String)
    (_approval_id : Option Nat) (_memo : Option String) :
    Except String (Contract × Unit) :=
  .error "Soulbound tokens are non-transferable"

/-- `nft_transfer_call`: unconditionally panics with the same message. -/
def nft_transfer_call (_c : Contract) (_receiver_id _token_id : String)
    (_approval_id : Option Nat) (_memo : Option String) (_msg : String) :
    Except String (Contract × Bool) :=
  .error "Soulbound tokens are non-transferable"

end FixedNft

namespace SolanaBio

/-! Embedding of
`src/contracts/solana/biometric-nft/programs/biometric-nft/src/lib.rs`
(Anchor program `biometric_nft`).  An instruction handler acts on the
`nft_account` it is given; on `Err` Anchor aborts the transaction and the
account data is not committed. -/

structure EmotionData where
  happiness : ℚ
  sadness : ℚ
  anger : ℚ
  fear : ℚ
  surprise : ℚ
  neutral : ℚ
deriving DecidableEq, Repr

structure BiometricNFT where
  owner : String
  is_initialized : Bool
  biometric_hash : String
  emotion_data : EmotionData
  quality_score : ℚ
  soulbound : Bool
  cross_chain_id : String
  token_id : String
  mint_timestamp : Int
  last_update_timestamp : Int
deriving DecidableEq, Repr

inductive ErrorCode where
  | LowQualityScore
  | InvalidBiometricHash
  | InvalidEmotionData
  | Unauthorized
  | SoulboundTransferRestricted
  | GenericError
deriving DecidableEq, Repr

/-- Stand-in for the external `solana_program::hash` SHA-256 digest rendering;
no settled claim depends on its value, only on the fields around it. -/
def solanaHash (s : String) : String := s

/-- `EmotionData` range validation shared by minting and updating: each of the
six components must lie in `[0, 1]`. -/
def emotionDataValid (e : EmotionData) : Prop :=
  0 ≤ e.happiness ∧ e.happiness ≤ 1 ∧ 0 ≤ e.sadness ∧ e.sadness ≤ 1 ∧
  0 ≤ e.anger ∧ e.anger ≤ 1 ∧ 0 ≤ e.fear ∧ e.fear ≤ 1 ∧
  0 ≤ e.surprise ∧ e.surprise ≤ 1 ∧ 0 ≤ e.neutral ∧ e.neutral ≤ 1

instance (e : EmotionData) : Decidable (emotionDataValid e) := by
  unfold emotionDataValid; infer_instance

/-- `mint_biometric_nft`: quality/hash/emotion validation, then the biometric
fields are stored and the token id derived from `"{owner}{biometric_hash}"`.
`String::len` in Rust counts UTF-8 bytes. -/
def mint_biometric_nft (a : BiometricNFT) (now : Int)
    (emotion_data : EmotionData) (quality_score : ℚ)
    (biometric_hash cross_chain_id : String) :
    Except ErrorCode BiometricNFT :=
  if ¬(quality_score ≥ 7/10) then .error .LowQualityScore
  else if ¬(biometric_hash.utf8ByteSize = 64) then .error .InvalidBiometricHash
  else if ¬emotionDataValid emotion_data then .error .InvalidEmotionData
  else
    let a' := { a with
      biometric_hash := biometric_hash, emotion_data := emotion_data,
      quality_score := quality_score, cross_chain_id := cross_chain_id,
      mint_timestamp := now }
    let token_id_seed := a'.owner ++ biometric_hash
    .ok { a' with token_id := solanaHash token_id_seed }

/-- `update_emotion_data`: only the stored owner may update; then the emotion
ranges are validated and the new data stored. -/
def update_emotion_data (a : BiometricNFT) (signer : String) (now : Int)
    (new_emotion_data : EmotionData) : Except ErrorCode BiometricNFT :=
  if ¬(a.owner = signer) then .error .Unauthorized
  else if ¬emotionDataValid new_emotion_data then .error .InvalidEmotionData
  else .ok { a with emotion_data := new_emotion_data, last_update_timestamp := now }

/-- `transfer_nft`: `require!(!nft_account.soulbound, SoulboundTransferRestricted)`
comes first, then the owner check, then the ownership update. -/
def transfer_nft (a : BiometricNFT) (signer : String) (now : Int)
    (new_owner : String) : Except ErrorCode BiometricNFT :=
  if a.soulbound then .error .SoulboundTransferRestricted
  else if ¬(a.owner = signer) then .error .Unauthorized
  else .ok { a with owner := new_owner, last_update_timestamp := now }

/-- The account actually persisted after an instruction: on `Err` the Anchor
transaction aborts and the account keeps its previous data. -/
def applyAccount {ε : Type} (r : Except ε BiometricNFT) (a : BiometricNFT) :
    BiometricNFT :=
  match r with
  | .ok a' => a'
  | .error _ => a

end SolanaBio

namespace SolanaCca

/-! Embedding of `src/src/solana-program/programs/cross-chain-ai/src/lib.rs`
(Anchor program `cross_chain_ai`); only the federated-learning pieces are
needed here. -/

structure GradientUpdate where
  participant : String
  gradient_data : List Nat
  local_loss : ℚ
  update_timestamp : Nat
  differential_privacy_noise : ℚ
deriving DecidableEq, Repr

structure FederatedLearningCoord where
  round_id : Nat
  participants : List String
  model_parameters : List Nat
  aggregation_method : String
  privacy_budget : ℚ
  convergence_threshold : ℚ
  round_timestamp : Nat
  gradient_updates : List GradientUpdate
deriving DecidableEq, Repr

/-- `submit_gradient_update`: no validation; the update is appended to the
stored `federated_coord` account and the handler returns `Ok(())`. -/
def submit_gradient_update (coord : FederatedLearningCoord)
    (participant : String) (now : Nat) (_round_id : Nat)
    (gradient_data : List Nat) (local_loss differential_privacy_noise : ℚ) :
    FederatedLearningCoord :=
  let update : GradientUpdate :=
    { participant := participant, gradient_data := gradient_data,
      local_loss := local_loss, update_timestamp := now,
      differential_privacy_noise := differential_privacy_noise }
  { coord with gradient_updates := coord.gradient_updates ++ [update] }

end SolanaCca

namespace FvmActor

/-! Embedding of `src/contracts/filecoin/biometric-nft-actor/src/lib.rs`
(FVM actor).  `fvm_sdk::vm::abort(code, msg)` is an aborting exit, embedded as
`Except.error (code, msg)`; an abort discards any in-memory state because the
actor only persists via `save_state`. -/

structure BiometricData where
  emotion_score : ℚ
  biometric_hash : String
  timestamp : Nat
  quality_score : ℚ
deriving DecidableEq, Repr

structure NFTMetadata where
  owner : Nat
  biometric_data : BiometricData
  soulbound : Bool
  cross_chain_id : String
deriving DecidableEq, Repr

structure State where
  nfts : List NFTMetadata
  total_supply : Nat
  owner_to_tokens : Nat → Option (List Nat)

/-- `State::default()`. -/
def State.initial : State where
  nfts := []
  total_supply := 0
  owner_to_tokens := fun _ => none

inductive ExitCode where
  | usrIllegalArgument
  | usrNotFound
  | usrForbidden
  | usrIllegalState
  | usrSerialization
  | usrUnhandledMessage
deriving DecidableEq, Repr

/-- `parse_biometric_params`: stubbed in the source — it ignores `params` and
always returns the same dummy biometric data (quality score `0.95`). -/
def parse_biometric_params (_params : Nat) : Except Unit BiometricData :=
  .ok { emotion_score := 85/100, biometric_hash := "test_biometric_hash",
        timestamp := 1640995200, quality_score := 95/100 }

/-- Body of `mint_biometric_nft` once the biometric data is in hand: build the
NFT (always soulbound, owner = caller), push it, extend the caller's token
list, bump `total_supply`, save, and return the new token id.  No field of the
biometric data — in particular `quality_score` — is inspected. -/
def mint_with_data (s : State) (caller : Nat) (biometric_data : BiometricData) :
    Except (ExitCode × String) (State × Nat) :=
  let nft : NFTMetadata :=
    { owner := caller, biometric_data := biometric_data, soulbound := true,
      cross_chain_id := "filecoin_biometric_" ++ toString s.total_supply }
  let tokens := ((s.owner_to_tokens caller).getD []) ++ [s.total_supply]
  .ok ({ nfts := s.nfts ++ [nft], total_supply := s.total_supply + 1,
         owner_to_tokens := mapInsert s.owner_to_tokens caller tokens },
       s.total_supply)

/-- `mint_biometric_nft` entry point: parse (stubbed), abort
`USR_ILLEGAL_ARGUMENT` on parse failure, otherwise mint. -/
def mint_biometric_nft (s : State) (caller : Nat) (params : Nat) :
    Except (ExitCode × String) (State × Nat) :=
  match parse_biometric_params params with
  | .error _ => .error (.usrIllegalArgument, "Invalid biometric data")
  | .ok biometric_data => mint_with_data s caller biometric_data

/-- `transfer_nft`: bounds check (`USR_NOT_FOUND`), then the soulbound check
aborts with `USR_FORBIDDEN`; the non-soulbound path is a stub that exits `1`
without changing ownership. -/
def transfer_nft (s : State) (token_id : Nat) (_new_owner : Nat) :
    Except (ExitCode × String) (State × Nat) :=
  if h : s.nfts.length ≤ token_id then .error (.usrNotFound, "NFT not found")
  else
    let nft := s.nfts.get ⟨token_id, Nat.lt_of_not_le h⟩
    if nft.soulbound then
      .error (.usrForbidden, "Soulbound tokens are non-transferable")
    else .ok (s, 1)

end FvmActor

namespace LanceDb

/-! Embedding of `generate_blockchain_embedding` from
`src/src/rust-client/src/lancedb_integration.rs`.  `f32` arithmetic on the
vector is modelled over `ℝ` (the source applies `sin` and `sqrt`); the scalar
fields of the inputs are `ℚ` so the text construction stays computable. -/

/-- A `serde_json::Value` as far as this function observes it: `as_str()`
yields the string of a JSON string and `None` otherwise. -/
inductive JValue where
  | str (s : String)
  | other
deriving DecidableEq, Repr

def JValue.asStr : JValue → Option String
  | .str s => some s
  | .other => none

/-- `EmotionalVector` is referenced but not defined under `src/`; the call
site reads exactly the three float fields `valence`, `arousal`, `dominance`. -/
structure EmotionalVector where
  valence : ℚ
  arousal : ℚ
  dominance : ℚ
deriving DecidableEq, Repr

/-- `HashMap::get` on the metadata map, modelled as association-list lookup. -/
def mdGet (metadata : List (String × JValue)) (k : String) : Option JValue :=
  metadata.lookup k

/-- Stand-in for Rust's `{:.2}` formatting inside the emotional-context text:
value rounded to two decimals.  Only the determinism of the rendering matters
to the settled claims, not the exact digits. -/
def fmt2 (q : ℚ) : String :=
  let n : Int := round (q * 100)
  let m := n.natAbs
  (if n < 0 then "-" else "") ++ toString (m / 100) ++ "." ++
    (if m % 100 < 10 then "0" else "") ++ toString (m % 100)

/-- The `text_representation` string built from the inputs. -/
def textRepresentation (asset_type blockchain : String)
    (metadata : List (String × JValue))
    (emotional_context : Option EmotionalVector) : String :=
  let t := asset_type ++ " asset on " ++ blockchain ++ " blockchain"
  let t :=
    match (mdGet metadata "name").bind JValue.asStr with
    | some name => t ++ " named " ++ name
    | none => t
  let t :=
    match (mdGet metadata "description").bind JValue.asStr with
    | some description => t ++ " described as " ++ description
    | none => t
  match emotional_context with
  | some emotion =>
      t ++ " with emotional valence " ++ fmt2 emotion.valence
        ++ " arousal " ++ fmt2 emotion.arousal
        ++ " dominance " ++ fmt2 emotion.dominance
  | none => t

/-- UTF-8 encoding of one code point (what Rust's `str::as_bytes` exposes
per character). -/
def utf8Bytes (c : Nat) : List Nat :=
  if c < 128 then [c]
  else if c < 2048 then [192 + c / 64, 128 + c % 64]
  else if c < 65536 then [224 + c / 4096, 128 + c / 64 % 64, 128 + c % 64]
  else [240 + c / 262144, 128 + c / 4096 % 64, 128 + c / 64 % 64, 128 + c % 64]

/-- `text_representation.as_bytes()`. -/
def textBytes (s : String) : List Nat :=
  (s.data.map (fun ch => utf8Bytes ch.toNat)).flatten

/-- The unnormalized 512-entry vector: position `i` is
`text_bytes[i % len] / 255` while `i` is within the text, and the fixed
`sin(i * 0.1) * 0.5 + 0.5` filler beyond it. -/
noncomputable def rawEmbedding (text : String) : List ℝ :=
  let text_bytes := textBytes text
  (List.range 512).map (fun i =>
    if i < text_bytes.length then
      ((text_bytes.getD (i % text_bytes.length) 0 : ℕ) : ℝ) / 255
    else
      Real.sin ((i : ℝ) * 0.1) * 0.5 + 0.5)

/-- The Euclidean magnitude `sqrt (Σ xᵢ²)` computed before normalization. -/
noncomputable def magnitude (v : List ℝ) : ℝ :=
  Real.sqrt ((v.map (fun x => x * x)).sum)

/-- The final normalization step: divide every component by the magnitude
when it is positive, otherwise leave the vector as is. -/
noncomputable def normalizeEmbedding (v : List ℝ) : List ℝ :=
  if magnitude v > 0 then v.map (fun x => x / magnitude v) else v

/-- `generate_blockchain_embedding`. -/
noncomputable def generate_blockchain_embedding (asset_type blockchain : String)
    (metadata : List (String × JValue))
    (emotional_context : Option EmotionalVector) : List ℝ :=
  normalizeEmbedding
    (rawEmbedding (textRepresentation asset_type blockchain metadata emotional_context))

/-- The pure byte-to-vector pipeline applied to an already-built text. -/
noncomputable def embedFromText (text : String) : List ℝ :=
  normalizeEmbedding (rawEmbedding text)

end LanceDb

/-! Concrete fixtures used to instantiate the theorems below. -/

def sampleSolNft : SolanaBio.BiometricNFT where
  owner := "alice"
  is_initialized := true
  biometric_hash := "bh"
  emotion_data := ⟨0, 0, 0, 0, 0, 0⟩
  quality_score := 1
  soulbound := true
  cross_chain_id := ""
  token_id := ""
  mint_timestamp := 0
  last_update_timestamp := 0

def sampleFvmBio : FvmActor.BiometricData where
  emotion_score := 85/100
  biometric_hash := "test_biometric_hash"
  timestamp := 1640995200
  quality_score := 95/100

def sampleFvmState : FvmActor.State where
  nfts := [{ owner := 7, biometric_data := sampleFvmBio, soulbound := true,
             cross_chain_id := "filecoin_biometric_0" }]
  total_supply := 1
  owner_to_tokens := mapInsert (fun _ => none) 7 [0]

def emptyFixedContract : FixedNft.Contract where
  owner_id := "owner.near"
  tokens_per_owner := fun _ => none
  tokens_by_id := fun _ => none
  token_metadata_by_id := fun _ => none
  metadata := none
  biometric_data := fun _ => none
  emotion_history := fun _ => none

def sampleSoulboundData : Governance.SoulboundData where
  biometric_hash := [1]
  ai_contributions := []
  reputation_score := 100
  trust_level := 1
  governance_participation := 0
  data_quality_score := 0
  ethical_alignment := 50
  cross_chain_activity := fun _ => none

def sampleProposal : Governance.GovernanceProposal where
  proposal_id := "p1"
  title := "T"
  description := "D"
  proposal_type := .AIGovernance
  creator := "alice"
  ai_model_requirements := []
  ethical_guidelines := []
  voting_period := 100
  execution_delay := 0
  votes_for := 0
  votes_against := 0
  votes_abstain := 0
  ai_consensus_score := 0
  status := .Active
  created_at := 0
  executed_at := none

def sampleGov : Governance.SoulboundAIGovernance where
  owner := "alice"
  total_supply := 1
  token_metadata := fun _ => none
  token_owners := mapInsert (fun _ => none) "t1" "alice"
  account_tokens := fun _ => none
  soulbound_data := mapInsert (fun _ => none) "t1" sampleSoulboundData
  ai_governance_votes := []
  proposals := mapInsert (fun _ => none) "p1" sampleProposal
  active_proposals := ["p1"]
  ai_models := fun _ => none
  federated_updates := fun _ => none

/-- C1: a transfer method called on a soulbound token always aborts with an
error and leaves the token's owner unchanged — `nft_transfer` and
`nft_transfer_call` in the fixed NEAR contract panic unconditionally, the
Solana `transfer_nft` fails with `SoulboundTransferRestricted` whenever the
account's `soulbound` flag is set, and the FVM actor's `transfer_nft` aborts
with `USR_FORBIDDEN` whenever the stored NFT's `soulbound` field is true. -/
theorem C1_soulbound_transfer_rejected :
    (∀ (c : FixedNft.Contract) (receiver_id token_id : String)
        (approval_id : Option Nat) (memo : Option String),
      FixedNft.nft_transfer c receiver_id token_id approval_id memo =
        .error "Soulbound tokens are non-transferable" ∧
      applyTx (FixedNft.nft_transfer c receiver_id token_id approval_id memo) c = c) ∧
    (∀ (c : FixedNft.Contract) (receiver_id token_id : String)
        (approval_id : Option Nat) (memo : Option String) (msg : String),
      FixedNft.nft_transfer_call c receiver_id token_id approval_id memo msg =
        .error "Soulbound tokens are non-transferable" ∧
      applyTx (FixedNft.nft_transfer_call c receiver_id token_id approval_id memo msg) c = c) ∧
    (∀ (a : SolanaBio.BiometricNFT) (signer : String) (now : Int) (new_owner : String),
      a.soulbound = true →
      SolanaBio.transfer_nft a signer now new_owner =
        .error .SoulboundTransferRestricted ∧
      (SolanaBio.applyAccount (SolanaBio.transfer_nft a signer now new_owner) a).owner =
        a.owner) ∧
    (∀ (s : FvmActor.State) (token_id new_owner : Nat)
        (h : token_id < s.nfts.length),
      (s.nfts.get ⟨token_id, h⟩).soulbound = true →
      FvmActor.transfer_nft s token_id new_owner =
        .error (.usrForbidden, "Soulbound tokens are non-transferable")) := by
  refine ⟨fun c r t a m => ⟨rfl, rfl⟩, fun c r t a m s => ⟨rfl, rfl⟩, ?_, ?_⟩
  · intro a signer now new_owner hsb
    constructor
    · simp [SolanaBio.transfer_nft, hsb]
    · simp [SolanaBio.transfer_nft, hsb, SolanaBio.applyAccount]
  · intro s token_id new_owner h hsb
    unfold FvmActor.transfer_nft
    rw [dif_neg (by omega)]
    simpa using hsb

/-- C1 witness: concrete soulbound tokens on each chain. -/
theorem C1_soulbound_transfer_rejected_witness :
    FixedNft.nft_transfer emptyFixedContract "bob" "token1" none none =
      .error "Soulbound tokens are non-transferable" ∧
    SolanaBio.transfer_nft sampleSolNft "alice" 3 "carol" =
      .error .SoulboundTransferRestricted ∧
    (SolanaBio.applyAccount (SolanaBio.transfer_nft sampleSolNft "alice" 3 "carol")
        sampleSolNft).owner = "alice" ∧
    FvmActor.transfer_nft sampleFvmState 0 9 =
      .error (.usrForbidden, "Soulbound tokens are non-transferable") := by
  obtain ⟨h1, _, h3, h4⟩ := C1_soulbound_transfer_rejected
  refine ⟨(h1 emptyFixedContract "bob" "token1" none none).1, ?_, ?_, ?_⟩
  · exact (h3 sampleSolNft "alice" 3 "carol" rfl).1
  · exact (h3 sampleSolNft "alice" 3 "carol" rfl).2
  · exact h4 sampleFvmState 0 9 (by decide) rfl

def lowQualityFvmBio : FvmActor.BiometricData where
  emotion_score := 1/2
  biometric_hash := "h"
  timestamp := 0
  quality_score := 1/2

/-- C2 counterexample: the FVM actor mints successfully — creating a token —
even when the biometric data's `quality_score` is `0.5 < 0.7`, refuting the
claim that minting below the threshold fails on all three chains. -/
theorem C2_mint_quality_threshold_counterexample :
    lowQualityFvmBio.quality_score < 7/10 ∧
    FvmActor.mint_with_data FvmActor.State.initial 7 lowQualityFvmBio =
      .ok ({ nfts := [{ owner := 7, biometric_data := lowQualityFvmBio,
                        soulbound := true,
                        cross_chain_id := "filecoin_biometric_0" }],
             total_supply := 1,
             owner_to_tokens := mapInsert (fun _ => none) 7 [0] }, 0) := by
  constructor
  · norm_num [lowQualityFvmBio]
  · rfl

/-- C2 (amended): minting with a quality score below `0.7` aborts with an
error and creates no token in the fixed NEAR contract (`nft_mint`) and in the
Solana program (`mint_biometric_nft`); the FVM actor, by contrast, performs no
quality-score validation — its minting succeeds and appends a token even when
the parsed biometric data's `quality_score` is below `0.7` (its parameter
parsing is stubbed to a fixed `0.95` anyway). -/
theorem C2_mint_quality_threshold_amended :
    (∀ (c : FixedNft.Contract) (now : Nat) (token_id receiver_id : String)
        (emotion_data : FixedNft.EmotionData) (quality_score : ℚ)
        (biometric_hash : String),
      quality_score < 7/10 →
      (∃ msg, FixedNft.nft_mint c now token_id receiver_id emotion_data
                quality_score biometric_hash = .error msg) ∧
      applyTx (FixedNft.nft_mint c now token_id receiver_id emotion_data
                quality_score biometric_hash) c = c) ∧
    (∀ (a : SolanaBio.BiometricNFT) (now : Int)
        (emotion_data : SolanaBio.EmotionData) (quality_score : ℚ)
        (biometric_hash cross_chain_id : String),
      quality_score < 7/10 →
      SolanaBio.mint_biometric_nft a now emotion_data quality_score
          biometric_hash cross_chain_id = .error .LowQualityScore ∧
      SolanaBio.applyAccount
        (SolanaBio.mint_biometric_nft a now emotion_data quality_score
          biometric_hash cross_chain_id) a = a) ∧
    (∀ (s : FvmActor.State) (caller : Nat) (bd : FvmActor.BiometricData),
      bd.quality_score < 7/10 →
      ∃ s', FvmActor.mint_with_data s caller bd = .ok (s', s.total_supply) ∧
            s'.nfts.length = s.nfts.length + 1 ∧
            s'.total_supply = s.total_supply + 1) := by
  refine ⟨?_, ?_, ?_⟩
  · intro c now token_id receiver_id emotion_data quality_score biometric_hash hq
    have hlt : ¬(quality_score ≥ 7/10) := not_le.mpr hq
    constructor
    · exact ⟨"Biometric quality too low: " ++ FixedNft.fmt2 quality_score,
        by simp [FixedNft.nft_mint, hlt]⟩
    · simp [FixedNft.nft_mint, hlt, applyTx]
  · intro a now emotion_data quality_score biometric_hash cross_chain_id hq
    have hlt : ¬(quality_score ≥ 7/10) := not_le.mpr hq
    constructor
    · simp [SolanaBio.mint_biometric_nft, hlt]
    · simp [SolanaBio.mint_biometric_nft, hlt, SolanaBio.applyAccount]
  · intro s caller bd _
    exact ⟨_, rfl, by simp [FvmActor.mint_with_data], rfl⟩

/-- C2 witness: concrete quality score `0.5` on each chain. -/
theorem C2_mint_quality_threshold_witness :
    (∃ msg, FixedNft.nft_mint emptyFixedContract 0 "token1" "alice"
              ⟨"Happy", 85/100, [], 6/10, 8/10⟩ (1/2) "hash123" = .error msg) ∧
    SolanaBio.mint_biometric_nft sampleSolNft 0 ⟨0, 0, 0, 0, 0, 0⟩ (1/2)
        "bh" "cc" = .error .LowQualityScore ∧
    (∃ s', FvmActor.mint_with_data FvmActor.State.initial 7 lowQualityFvmBio =
             .ok (s', 0) ∧ s'.nfts.length = 1) := by
  have hq : (1 : ℚ)/2 < 7/10 := by norm_num
  obtain ⟨h1, h2, h3⟩ := C2_mint_quality_threshold_amended
  refine ⟨?_, ?_, ?_⟩
  · exact (h1 emptyFixedContract 0 "token1" "alice" ⟨"Happy", 85/100, [], 6/10, 8/10⟩
      (1/2) "hash123" hq).1
  · exact (h2 sampleSolNft 0 ⟨0, 0, 0, 0, 0, 0⟩ (1/2) "bh" "cc" hq).1
  · obtain ⟨s', hs, hlen, _⟩ :=
      h3 FvmActor.State.initial 7 lowQualityFvmBio (by norm_num [lowQualityFvmBio])
    exact ⟨s', hs, by simpa using hlen⟩

/-- C3: an owner-only method called by anyone other than the recorded owner of
the token rejects the call and leaves the state unchanged —
`record_ai_contribution`, `vote_on_proposal` and `record_cross_chain_activity`
abort with "Not token owner" when the caller differs from
`token_owners[token_id]`, and the Solana `update_emotion_data` fails with
`Unauthorized` when the signer is not the stored NFT owner. -/
theorem C3_owner_only_methods_reject_non_owner :
    (∀ (g : Governance.SoulboundAIGovernance) (caller token_id : String)
        (contribution : Governance.AIContribution) (o : String),
      g.token_owners token_id = some o → caller ≠ o →
      Governance.record_ai_contribution g caller token_id contribution =
        .error "Not token owner" ∧
      applyTx (Governance.record_ai_contribution g caller token_id contribution) g = g) ∧
    (∀ (g : Governance.SoulboundAIGovernance) (caller : String) (now : Nat)
        (token_id proposal_id : String) (vote_type : Governance.VoteType)
        (ai_confidence : ℚ) (reasoning : String)
        (biometric_verification : List Nat) (o : String),
      g.token_owners token_id = some o → caller ≠ o →
      Governance.vote_on_proposal g caller now token_id proposal_id vote_type
          ai_confidence reasoning biometric_verification =
        .error "Not token owner" ∧
      applyTx (Governance.vote_on_proposal g caller now token_id proposal_id
        vote_type ai_confidence reasoning biometric_verification) g = g) ∧
    (∀ (g : Governance.SoulboundAIGovernance) (caller : String) (now : Nat)
        (token_id chain activity_type tx_hash : String) (block_height : Nat)
        (metadata : String → Option String) (o : String),
      g.token_owners token_id = some o → caller ≠ o →
      Governance.record_cross_chain_activity g caller now token_id chain
          activity_type tx_hash block_height metadata =
        .error "Not token owner" ∧
      applyTx (Governance.record_cross_chain_activity g caller now token_id chain
        activity_type tx_hash block_height metadata) g = g) ∧
    (∀ (a : SolanaBio.BiometricNFT) (signer : String) (now : Int)
        (new_emotion_data : SolanaBio.EmotionData),
      a.owner ≠ signer →
      SolanaBio.update_emotion_data a signer now new_emotion_data =
        .error .Unauthorized ∧
      SolanaBio.applyAccount
        (SolanaBio.update_emotion_data a signer now new_emotion_data) a = a) := by
  refine ⟨?_, ?_, ?_, ?_⟩
  · intro g caller token_id contribution o ho hne
    have hguard : ¬(g.token_owners token_id = some caller) := by
      rw [ho]; simpa using fun e => hne e.symm
    constructor
    · simp [Governance.record_ai_contribution, hguard]
    · simp [Governance.record_ai_contribution, hguard, applyTx]
  · intro g caller now token_id proposal_id vote_type ai_confidence reasoning
      biometric_verification o ho hne
    have hguard : ¬(g.token_owners token_id = some caller) := by
      rw [ho]; simpa using fun e => hne e.symm
    constructor
    · simp [Governance.vote_on_proposal, hguard]
    · simp [Governance.vote_on_proposal, hguard, applyTx]
  · intro g caller now token_id chain activity_type tx_hash block_height
      metadata o ho hne
    have hguard : ¬(g.token_owners token_id = some caller) := by
      rw [ho]; simpa using fun e => hne e.symm
    constructor
    · simp [Governance.record_cross_chain_activity, hguard]
    · simp [Governance.record_cross_chain_activity, hguard, applyTx]
  · intro a signer now new_emotion_data hne
    constructor
    · simp [SolanaBio.update_emotion_data, hne]
    · simp [SolanaBio.update_emotion_data, hne, SolanaBio.applyAccount]

def sampleContribution : Governance.AIContribution where
  contribution_type := "inference"
  model_id := "m1"
  data_hash := [1]
  accuracy_score := 9/10
  timestamp := 3
  chain := "near"
  reward_points := 10

/-- C3 witness: caller `bob` against tokens owned by `alice`. -/
theorem C3_owner_only_methods_reject_non_owner_witness :
    Governance.record_ai_contribution sampleGov "bob" "t1" sampleContribution =
      .error "Not token owner" ∧
    Governance.vote_on_proposal sampleGov "bob" 10 "t1" "p1" .For 1 "r" [] =
      .error "Not token owner" ∧
    Governance.record_cross_chain_activity sampleGov "bob" 10 "t1" "near" "mint"
        "0xabc" 5 (fun _ => none) = .error "Not token owner" ∧
    SolanaBio.update_emotion_data sampleSolNft "bob" 3 ⟨0, 0, 0, 0, 0, 0⟩ =
      .error .Unauthorized := by
  obtain ⟨h1, h2, h3, h4⟩ := C3_owner_only_methods_reject_non_owner
  have ho : sampleGov.token_owners "t1" = some "alice" := rfl
  have hne : ("bob" : String) ≠ "alice" := by decide
  refine ⟨(h1 sampleGov "bob" "t1" sampleContribution "alice" ho hne).1,
          (h2 sampleGov "bob" 10 "t1" "p1" .For 1 "r" [] "alice" ho hne).1,
          (h3 sampleGov "bob" 10 "t1" "near" "mint" "0xabc" 5 (fun _ => none)
            "alice" ho hne).1,
          (h4 sampleSolNft "bob" 3 ⟨0, 0, 0, 0, 0, 0⟩ (by decide)).1⟩

/-- C4: every successful `vote_on_proposal` increments exactly the tally
bucket matching the supplied `VoteType` by one and leaves the other two tally
fields of the proposal unchanged. -/
theorem C4_vote_tally_matches_vote_type
    (g : Governance.SoulboundAIGovernance) (caller : String) (now : Nat)
    (token_id proposal_id : String) (vote_type : Governance.VoteType)
    (ai_confidence : ℚ) (reasoning : String) (biometric_verification : List Nat)
    (g' : Governance.SoulboundAIGovernance) (r : Unit)
    (p p' : Governance.GovernanceProposal)
    (h : Governance.vote_on_proposal g caller now token_id proposal_id vote_type
          ai_confidence reasoning biometric_verification = .ok (g', r))
    (hp : g.proposals proposal_id = some p)
    (hp' : g'.proposals proposal_id = some p') :
    (vote_type = .For ∧ p'.votes_for = p.votes_for + 1 ∧
        p'.votes_against = p.votes_against ∧ p'.votes_abstain = p.votes_abstain) ∨
    (vote_type = .Against ∧ p'.votes_against = p.votes_against + 1 ∧
        p'.votes_for = p.votes_for ∧ p'.votes_abstain = p.votes_abstain) ∨
    (vote_type = .Abstain ∧ p'.votes_abstain = p.votes_abstain + 1 ∧
        p'.votes_for = p.votes_for ∧ p'.votes_against = p.votes_against) := by
  unfold Governance.vote_on_proposal at h
  repeat' split at h
  all_goals try exact Except.noConfusion h
  all_goals (
    rw [Except.ok.injEq, Prod.mk.injEq] at h
    obtain ⟨hg, -⟩ := h
    subst hg
    obtain rfl := Option.some.inj (hp.symm.trans (by assumption))
    simp only [mapInsert, eq_self_iff_true, if_true, Option.some.injEq] at hp'
    subst hp'
    first
      | exact Or.inl ⟨rfl, rfl, rfl, rfl⟩
      | exact Or.inr (Or.inl ⟨rfl, rfl, rfl, rfl⟩)
      | exact Or.inr (Or.inr ⟨rfl, rfl, rfl, rfl⟩))

def sampleVoteList : List (String × Governance.AIGovernanceVote) :=
  [("t1_p1", { voter_token_id := "t1", proposal_id := "p1", vote_type := .For,
               ai_confidence := 1, reasoning := "r",
               biometric_verification := [], timestamp := 10 })]

def sampleVotedProposal : Governance.GovernanceProposal :=
  { sampleProposal with
      votes_for := sampleProposal.votes_for + 1,
      ai_consensus_score := Governance.calculate_ai_consensus sampleVoteList "p1" }

/-- C4 witness: a concrete successful `For` vote on an active proposal. -/
theorem C4_vote_tally_matches_vote_type_witness :
    Governance.vote_on_proposal sampleGov "alice" 10 "t1" "p1" .For 1 "r" [] =
      .ok (applyTx (Governance.vote_on_proposal sampleGov "alice" 10 "t1" "p1"
            .For 1 "r" []) sampleGov, ()) ∧
    sampleGov.proposals "p1" = some sampleProposal ∧
    (applyTx (Governance.vote_on_proposal sampleGov "alice" 10 "t1" "p1" .For 1
        "r" []) sampleGov).proposals "p1" = some sampleVotedProposal ∧
    sampleVotedProposal.votes_for = sampleProposal.votes_for + 1 ∧
    sampleVotedProposal.votes_against = sampleProposal.votes_against ∧
    sampleVotedProposal.votes_abstain = sampleProposal.votes_abstain := by
  have h : Governance.vote_on_proposal sampleGov "alice" 10 "t1" "p1" .For 1 "r" [] =
      .ok (applyTx (Governance.vote_on_proposal sampleGov "alice" 10 "t1" "p1"
            .For 1 "r" []) sampleGov, ()) := rfl
  have hp : sampleGov.proposals "p1" = some sampleProposal := rfl
  have hp' : (applyTx (Governance.vote_on_proposal sampleGov "alice" 10 "t1" "p1"
      .For 1 "r" []) sampleGov).proposals "p1" = some sampleVotedProposal := rfl
  rcases C4_vote_tally_matches_vote_type sampleGov "alice" 10 "t1" "p1" .For 1
      "r" [] _ () sampleProposal sampleVotedProposal h hp hp' with
    ⟨_, h1, h2, h3⟩ | ⟨hc, _⟩ | ⟨hc, _⟩
  · exact ⟨h, hp, hp', h1, h2, h3⟩
  · exact absurd hc (by simp)
  · exact absurd hc (by simp)

/-- C5: a successful `process_ai_data` stores under `packet_id` — and
`get_ai_data_packet` then returns — a packet whose `data_type`, `ai_data`,
`signature`, `confidence`, `model_version` and `inference_result` are exactly
the caller-supplied values, copied unmodified (the timestamp being the block
time); nothing is verified or transformed beyond the entry `require!`s. -/
theorem C5_process_ai_data_copies_caller_fields
    (c : CrossChainAI.CrossChainAIML) (caller : String) (now : Nat)
    (packet_id stream_id data_type : String) (ai_data signature : List Nat)
    (confidence : Nat) (model_version : String)
    (inference_result : CrossChainAI.InferenceResult)
    (c' : CrossChainAI.CrossChainAIML) (r : Bool)
    (h : CrossChainAI.process_ai_data c caller now packet_id stream_id data_type
          ai_data signature confidence model_version inference_result =
         .ok (c', r)) :
    r = true ∧
    CrossChainAI.get_ai_data_packet c' packet_id =
      some { packet_id := packet_id, stream_id := stream_id,
             data_type := data_type, ai_data := ai_data, signature := signature,
             confidence := confidence, model_version := model_version,
             timestamp := now, inference_result := inference_result } := by
  unfold CrossChainAI.process_ai_data at h
  repeat' split at h
  all_goals try exact Except.noConfusion h
  rw [Except.ok.injEq, Prod.mk.injEq] at h
  obtain ⟨hg, hr⟩ := h
  subst hg
  exact ⟨hr.symm, by simp [CrossChainAI.get_ai_data_packet, mapInsert]⟩

def sampleStreamState : CrossChainAI.CrossChainAIML :=
  applyTx (CrossChainAI.create_data_stream CrossChainAI.CrossChainAIML.new
    "alice.near" 5 "s1" "near" "solana" "Qm1" [] 1) CrossChainAI.CrossChainAIML.new

def sampleIR : CrossChainAI.InferenceResult :=
  { prediction := "cat", confidence_score := 9/10, model_name := "m1",
    processing_time_ms := 12, input_hash := "ih", output_hash := "oh" }

/-- C5 witness: a concrete packet submitted by the stream creator. -/
theorem C5_process_ai_data_copies_caller_fields_witness :
    CrossChainAI.get_ai_data_packet
      (applyTx (CrossChainAI.process_ai_data sampleStreamState "alice.near" 6
        "p1" "s1" "inference" [1] [2] 95 "v1" sampleIR) sampleStreamState) "p1" =
    some { packet_id := "p1", stream_id := "s1", data_type := "inference",
           ai_data := [1], signature := [2], confidence := 95,
           model_version := "v1", timestamp := 6,
           inference_result := sampleIR } := by
  have h : CrossChainAI.process_ai_data sampleStreamState "alice.near" 6
      "p1" "s1" "inference" [1] [2] 95 "v1" sampleIR =
      .ok (applyTx (CrossChainAI.process_ai_data sampleStreamState "alice.near" 6
        "p1" "s1" "inference" [1] [2] 95 "v1" sampleIR) sampleStreamState, true) := rfl
  exact (C5_process_ai_data_copies_caller_fields sampleStreamState "alice.near" 6
    "p1" "s1" "inference" [1] [2] 95 "v1" sampleIR _ true h).2

/-- C6: gradient persistence differs across the two chain implementations —
the NEAR `submit_gradient_update` always succeeds returning `true` with the
contract state untouched, the NEAR `coordinate_federated_learning` returns a
`FederatedLearningCoord` whose `gradient_updates` list is empty without
persisting anything, while the Solana `submit_gradient_update` appends the
update to the stored federated-coordination account. -/
theorem C6_gradient_persistence_inconsistent :
    (∀ (c : CrossChainAI.CrossChainAIML) (caller : String) (now round_id : Nat)
        (gradient_data : List Nat) (local_loss noise : ℚ),
      CrossChainAI.submit_gradient_update c caller now round_id gradient_data
        local_loss noise = .ok (c, true)) ∧
    (∀ (c : CrossChainAI.CrossChainAIML) (caller : String) (round_id : Nat)
        (participants : List String) (model_parameters : List Nat)
        (aggregation_method : String) (privacy_budget convergence_threshold : ℚ)
        (c' : CrossChainAI.CrossChainAIML)
        (coord : CrossChainAI.FederatedLearningCoord),
      CrossChainAI.coordinate_federated_learning c caller round_id participants
          model_parameters aggregation_method privacy_budget
          convergence_threshold = .ok (c', coord) →
      c' = c ∧ coord.gradient_updates = []) ∧
    (∀ (fc : SolanaCca.FederatedLearningCoord) (participant : String)
        (now round_id : Nat) (gradient_data : List Nat) (local_loss noise : ℚ),
      (SolanaCca.submit_gradient_update fc participant now round_id
          gradient_data local_loss noise).gradient_updates =
        fc.gradient_updates ++
          [{ participant := participant, gradient_data := gradient_data,
             local_loss := local_loss, update_timestamp := now,
             differential_privacy_noise := noise }]) := by
  refine ⟨fun _ _ _ _ _ _ _ => rfl, ?_, fun _ _ _ _ _ _ _ => rfl⟩
  intro c caller round_id participants model_parameters aggregation_method
    privacy_budget convergence_threshold c' coord h
  unfold CrossChainAI.coordinate_federated_learning at h
  repeat' split at h
  all_goals try exact Except.noConfusion h
  rw [Except.ok.injEq, Prod.mk.injEq] at h
  obtain ⟨hg, hcoord⟩ := h
  subst hcoord
  exact ⟨hg.symm, rfl⟩

def sampleOracleState : CrossChainAI.CrossChainAIML :=
  { CrossChainAI.CrossChainAIML.new with
      ai_oracles := mapInsert (fun _ => none) "oracle.near" true }

def sampleCoord : CrossChainAI.FederatedLearningCoord :=
  { round_id := 1, participants := ["p.near"], model_parameters := [],
    gradient_updates := [], aggregation_method := "fedavg",
    privacy_budget := 1, convergence_threshold := 1 }

def sampleSolCoord : SolanaCca.FederatedLearningCoord :=
  { round_id := 1, participants := ["a"], model_parameters := [],
    aggregation_method := "fedavg", privacy_budget := 1,
    convergence_threshold := 1, round_timestamp := 0, gradient_updates := [] }

/-- C6 witness: concrete calls on both chains. -/
theorem C6_gradient_persistence_inconsistent_witness :
    CrossChainAI.submit_gradient_update CrossChainAI.CrossChainAIML.new
      "p.near" 3 1 [7] 1 2 = .ok (CrossChainAI.CrossChainAIML.new, true) ∧
    sampleCoord.gradient_updates = [] ∧
    (SolanaCca.submit_gradient_update sampleSolCoord "b.sol" 4 1 [9] 1
        2).gradient_updates =
      sampleSolCoord.gradient_updates ++
        [{ participant := "b.sol", gradient_data := [9], local_loss := 1,
           update_timestamp := 4, differential_privacy_noise := 2 }] := by
  obtain ⟨h1, h2, h3⟩ := C6_gradient_persistence_inconsistent
  refine ⟨h1 CrossChainAI.CrossChainAIML.new "p.near" 3 1 [7] 1 2, ?_,
          h3 sampleSolCoord "b.sol" 4 1 [9] 1 2⟩
  exact (h2 sampleOracleState "oracle.near" 1 ["p.near"] [] "fedavg" 1 1
    sampleOracleState sampleCoord rfl).2

/-- C8: whenever any of `create_data_stream`'s validation checks fails (empty
stream id, source chain, target chain or IPFS hash; source or target chain
missing from the chain-id mapping; source equal to target), the call aborts
with an error and the contract state is unchanged — no stream inserted, no id
appended, no counter increment. -/
theorem C8_create_data_stream_validation_aborts
    (c : CrossChainAI.CrossChainAIML) (caller : String) (now : Nat)
    (stream_id source_chain target_chain ipfs_hash : String)
    (encrypted_data : List Nat) (epoch : Nat)
    (h : stream_id.isEmpty = true ∨ source_chain.isEmpty = true ∨
         target_chain.isEmpty = true ∨ ipfs_hash.isEmpty = true ∨
         (c.chain_ids source_chain).isNone = true ∨
         (c.chain_ids target_chain).isNone = true ∨
         source_chain = target_chain) :
    (∃ msg, CrossChainAI.create_data_stream c caller now stream_id source_chain
              target_chain ipfs_hash encrypted_data epoch = .error msg) ∧
    applyTx (CrossChainAI.create_data_stream c caller now stream_id source_chain
      target_chain ipfs_hash encrypted_data epoch) c = c := by
  unfold CrossChainAI.create_data_stream
  split_ifs with h1 h2 h3 h4 h5 h6 h7
  all_goals
    first
      | exact ⟨⟨_, rfl⟩, rfl⟩
      | rcases h with hh | hh | hh | hh | hh | hh | hh <;> simp_all

/-- C8 witness: an empty stream id on the freshly initialized contract. -/
theorem C8_create_data_stream_validation_aborts_witness :
    (∃ msg, CrossChainAI.create_data_stream CrossChainAI.CrossChainAIML.new
              "alice.near" 5 "" "near" "solana" "Qm1" [] 1 = .error msg) ∧
    applyTx (CrossChainAI.create_data_stream CrossChainAI.CrossChainAIML.new
      "alice.near" 5 "" "near" "solana" "Qm1" [] 1)
      CrossChainAI.CrossChainAIML.new = CrossChainAI.CrossChainAIML.new :=
  C8_create_data_stream_validation_aborts CrossChainAI.CrossChainAIML.new
    "alice.near" 5 "" "near" "solana" "Qm1" [] 1 (Or.inl rfl)

/-- C10: `create_data_stream` never rejects an already-used `stream_id`: a
second valid call with the same id succeeds, overwrites the stored record
with the new caller as creator, appends the id to `active_stream_ids` a
second time, and increments `stream_counter`, so `get_active_streams_count`
counts duplicates. -/
theorem C10_create_data_stream_overwrites_duplicates
    (c : CrossChainAI.CrossChainAIML) (caller2 : String) (now : Nat)
    (stream_id source_chain target_chain ipfs_hash : String)
    (encrypted_data : List Nat) (epoch : Nat) (s0 : CrossChainAI.DataStream)
    (_hex : c.data_streams stream_id = some s0)
    (h1 : stream_id.isEmpty = false) (h2 : source_chain.isEmpty = false)
    (h3 : target_chain.isEmpty = false) (h4 : ipfs_hash.isEmpty = false)
    (h5 : (c.chain_ids source_chain).isNone = false)
    (h6 : (c.chain_ids target_chain).isNone = false)
    (h7 : source_chain ≠ target_chain) :
    ∃ c', CrossChainAI.create_data_stream c caller2 now stream_id source_chain
            target_chain ipfs_hash encrypted_data epoch = .ok (c', stream_id) ∧
      c'.data_streams stream_id =
        some { stream_id := stream_id, creator := caller2,
               source_chain := source_chain, target_chain := target_chain,
               ipfs_hash := ipfs_hash, encrypted_data := encrypted_data,
               timestamp := now, epoch := epoch, active := true,
               metadata := fun _ => none } ∧
      c'.active_stream_ids = c.active_stream_ids ++ [stream_id] ∧
      c'.stream_counter = c.stream_counter + 1 ∧
      CrossChainAI.get_active_streams_count c' =
        CrossChainAI.get_active_streams_count c + 1 := by
  have hok : CrossChainAI.create_data_stream c caller2 now stream_id
      source_chain target_chain ipfs_hash encrypted_data epoch =
      .ok ({ c with
              data_streams := mapInsert c.data_streams stream_id
                { stream_id := stream_id, creator := caller2,
                  source_chain := source_chain, target_chain := target_chain,
                  ipfs_hash := ipfs_hash, encrypted_data := encrypted_data,
                  timestamp := now, epoch := epoch, active := true,
                  metadata := fun _ => none },
              active_stream_ids := c.active_stream_ids ++ [stream_id],
              stream_counter := c.stream_counter + 1 }, stream_id) := by
    unfold CrossChainAI.create_data_stream
    simp [h1, h2, h3, h4, h5, h6, h7]
  exact ⟨_, hok, by simp [mapInsert], rfl, rfl,
    by simp [CrossChainAI.get_active_streams_count]⟩

/-- C10 witness: a second `create_data_stream` call reusing id `s1` by a
different caller; the duplicate makes the active-stream count exceed the
number of distinct stream ids. -/
theorem C10_create_data_stream_overwrites_duplicates_witness :
    ∃ c', CrossChainAI.create_data_stream sampleStreamState "mallory.near" 9
            "s1" "near" "solana" "Qm2" [] 2 = .ok (c', "s1") ∧
      c'.data_streams "s1" =
        some { stream_id := "s1", creator := "mallory.near",
               source_chain := "near", target_chain := "solana",
               ipfs_hash := "Qm2", encrypted_data := [], timestamp := 9,
               epoch := 2, active := true, metadata := fun _ => none } ∧
      c'.active_stream_ids = ["s1", "s1"] ∧
      CrossChainAI.get_active_streams_count c' = 2 ∧
      c'.active_stream_ids.dedup.length = 1 := by
  obtain ⟨c', hok, hds, has, hsc, hcount⟩ :=
    C10_create_data_stream_overwrites_duplicates sampleStreamState
      "mallory.near" 9 "s1" "near" "solana" "Qm2" [] 2
      { stream_id := "s1", creator := "alice.near", source_chain := "near",
        target_chain := "solana", ipfs_hash := "Qm1", encrypted_data := [],
        timestamp := 5, epoch := 1, active := true, metadata := fun _ => none }
      rfl rfl rfl rfl rfl rfl rfl (by decide)
  have hact : sampleStreamState.active_stream_ids = ["s1"] := rfl
  have hcnt : CrossChainAI.get_active_streams_count sampleStreamState = 1 := rfl
  refine ⟨c', hok, hds, ?_, ?_, ?_⟩
  · rw [has, hact]; rfl
  · rw [hcount, hcnt]
  · rw [has, hact]; decide

/-- C7: `generate_blockchain_embedding` is deterministic and computed purely
from the bytes of the textual representation of its inputs: it factors through
`textRepresentation`, and any two metadata maps indistinguishable through the
`name`/`description` string lookups (all the function reads) yield the same
output vector; there is no randomness, clock, or external model input. -/
theorem C7_embedding_deterministic_and_pure :
    (∀ (asset_type blockchain : String)
        (metadata : List (String × LanceDb.JValue))
        (emotional_context : Option LanceDb.EmotionalVector),
      LanceDb.generate_blockchain_embedding asset_type blockchain metadata
          emotional_context =
        LanceDb.embedFromText
          (LanceDb.textRepresentation asset_type blockchain metadata
            emotional_context)) ∧
    (∀ (asset_type blockchain : String)
        (md₁ md₂ : List (String × LanceDb.JValue))
        (emotional_context : Option LanceDb.EmotionalVector),
      (LanceDb.mdGet md₁ "name").bind LanceDb.JValue.asStr =
        (LanceDb.mdGet md₂ "name").bind LanceDb.JValue.asStr →
      (LanceDb.mdGet md₁ "description").bind LanceDb.JValue.asStr =
        (LanceDb.mdGet md₂ "description").bind LanceDb.JValue.asStr →
      LanceDb.generate_blockchain_embedding asset_type blockchain md₁
          emotional_context =
        LanceDb.generate_blockchain_embedding asset_type blockchain md₂
          emotional_context) := by
  refine ⟨fun _ _ _ _ => rfl, ?_⟩
  intro asset_type blockchain md₁ md₂ emotional_context hn hd
  unfold LanceDb.generate_blockchain_embedding LanceDb.textRepresentation
  rw [hn, hd]

/-- C7 witness: two different metadata maps with identical `name` and
`description` lookups produce the same embedding. -/
theorem C7_embedding_deterministic_and_pure_witness :
    LanceDb.generate_blockchain_embedding "nft" "near"
        [("name", .str "x")] none =
      LanceDb.generate_blockchain_embedding "nft" "near"
        [("color", .other), ("name", .str "x")] none :=
  C7_embedding_deterministic_and_pure.2 "nft" "near"
    [("name", .str "x")] [("color", .other), ("name", .str "x")] none rfl rfl

/-- Sum of squares over a list of reals is nonnegative. -/
theorem sumSq_nonneg (v : List ℝ) : 0 ≤ (v.map (fun x => x * x)).sum := by
  refine List.sum_nonneg ?_
  intro x hx
  obtain ⟨y, _, rfl⟩ := List.mem_map.mp hx
  exact mul_self_nonneg y

/-- Dividing every entry by `c` divides the sum of squares by `c * c`. -/
theorem sumSq_map_div (v : List ℝ) (c : ℝ) :
    ((v.map (fun x => x / c)).map (fun x => x * x)).sum =
      (v.map (fun x => x * x)).sum / (c * c) := by
  induction v with
  | nil => simp
  | cons x xs ih =>
      simp only [List.map_cons, List.sum_cons, ih]
      rw [div_mul_div_comm, add_div]

/-- Normalizing a vector of positive magnitude yields magnitude `1`. -/
theorem magnitude_normalize (v : List ℝ) (h : 0 < LanceDb.magnitude v) :
    LanceDb.magnitude (v.map (fun x => x / LanceDb.magnitude v)) = 1 := by
  have hS : 0 < (v.map (fun x => x * x)).sum := Real.sqrt_pos.mp h
  unfold LanceDb.magnitude
  rw [sumSq_map_div]
  rw [Real.mul_self_sqrt (sumSq_nonneg v)]
  rw [div_self (ne_of_gt hS), Real.sqrt_one]

/-- C9: the embedding always has exactly 512 entries; whenever the
unnormalized vector has positive magnitude the result is that vector with
each component divided by the magnitude, and its Euclidean norm is `1`; and
every position at or beyond the text length holds `sin(i * 0.1) * 0.5 + 0.5`
before normalization. -/
theorem C9_embedding_shape_and_normalization :
    (∀ (asset_type blockchain : String)
        (metadata : List (String × LanceDb.JValue))
        (emotional_context : Option LanceDb.EmotionalVector),
      (LanceDb.generate_blockchain_embedding asset_type blockchain metadata
        emotional_context).length = 512) ∧
    (∀ (asset_type blockchain : String)
        (metadata : List (String × LanceDb.JValue))
        (emotional_context : Option LanceDb.EmotionalVector),
      0 < LanceDb.magnitude (LanceDb.rawEmbedding
            (LanceDb.textRepresentation asset_type blockchain metadata
              emotional_context)) →
      LanceDb.generate_blockchain_embedding asset_type blockchain metadata
          emotional_context =
        (LanceDb.rawEmbedding (LanceDb.textRepresentation asset_type blockchain
            metadata emotional_context)).map
          (fun x => x / LanceDb.magnitude (LanceDb.rawEmbedding
            (LanceDb.textRepresentation asset_type blockchain metadata
              emotional_context))) ∧
      LanceDb.magnitude (LanceDb.generate_blockchain_embedding asset_type
        blockchain metadata emotional_context) = 1) ∧
    (∀ (t : String) (i : Nat),
      (LanceDb.textBytes t).length ≤ i → i < 512 →
      (LanceDb.rawEmbedding t).getD i 0 =
        Real.sin ((i : ℝ) * 0.1) * 0.5 + 0.5) := by
  refine ⟨?_, ?_, ?_⟩
  · intro asset_type blockchain metadata emotional_context
    unfold LanceDb.generate_blockchain_embedding LanceDb.normalizeEmbedding
    split <;> simp [LanceDb.rawEmbedding]
  · intro asset_type blockchain metadata emotional_context h
    have hmap : LanceDb.generate_blockchain_embedding asset_type blockchain
        metadata emotional_context =
        (LanceDb.rawEmbedding (LanceDb.textRepresentation asset_type blockchain
            metadata emotional_context)).map
          (fun x => x / LanceDb.magnitude (LanceDb.rawEmbedding
            (LanceDb.textRepresentation asset_type blockchain metadata
              emotional_context))) := by
      unfold LanceDb.generate_blockchain_embedding LanceDb.normalizeEmbedding
      rw [if_pos h]
    exact ⟨hmap, by rw [hmap]; exact magnitude_normalize _ h⟩
  · intro t i hlen hi
    unfold LanceDb.rawEmbedding
    rw [List.getD_eq_getElem _ 0 (by simpa using hi)]
    simp only [List.getElem_map, List.getElem_range]
    rw [if_neg (by omega)]

/-- A text with a positive first byte yields a raw embedding vector of
positive magnitude. -/
theorem magnitude_rawEmbedding_pos (t : String)
    (h0 : 0 < (LanceDb.textBytes t).length)
    (hb : 0 < (LanceDb.textBytes t).getD 0 0) :
    0 < LanceDb.magnitude (LanceDb.rawEmbedding t) := by
  have hv0 : (((LanceDb.textBytes t).getD 0 0 : ℕ) : ℝ) / 255 ∈
      LanceDb.rawEmbedding t := by
    unfold LanceDb.rawEmbedding
    exact List.mem_map.mpr ⟨0, by simp, by simp [h0]⟩
  have hsq : ((((LanceDb.textBytes t).getD 0 0 : ℕ) : ℝ) / 255) *
      ((((LanceDb.textBytes t).getD 0 0 : ℕ) : ℝ) / 255) ∈
      (LanceDb.rawEmbedding t).map (fun x => x * x) :=
    List.mem_map_of_mem _ hv0
  have hpos : 0 < (((LanceDb.textBytes t).getD 0 0 : ℕ) : ℝ) / 255 := by
    apply div_pos _ (by norm_num : (0 : ℝ) < 255)
    exact_mod_cast hb
  have hsum : 0 < ((LanceDb.rawEmbedding t).map (fun x => x * x)).sum :=
    lt_of_lt_of_le (mul_pos hpos hpos)
      (List.single_le_sum
        (fun y hy => by
          obtain ⟨z, _, rfl⟩ := List.mem_map.mp hy
          exact mul_self_nonneg z) _ hsq)
  unfold LanceDb.magnitude
  exact Real.sqrt_pos.mpr hsum

/-- C9 witness: a concrete input whose text is 28 bytes long, so position 100
uses the sine filler; its unnormalized magnitude is positive and the returned
embedding has 512 entries of norm 1. -/
theorem C9_embedding_shape_and_normalization_witness :
    (LanceDb.generate_blockchain_embedding "nft" "near" [] none).length = 512 ∧
    LanceDb.magnitude
      (LanceDb.generate_blockchain_embedding "nft" "near" [] none) = 1 ∧
    (LanceDb.rawEmbedding
        (LanceDb.textRepresentation "nft" "near" [] none)).getD 100 0 =
      Real.sin ((100 : ℝ) * 0.1) * 0.5 + 0.5 := by
  obtain ⟨h1, h2, h3⟩ := C9_embedding_shape_and_normalization
  have hmag : 0 < LanceDb.magnitude (LanceDb.rawEmbedding
      (LanceDb.textRepresentation "nft" "near" [] none)) :=
    magnitude_rawEmbedding_pos _ (by decide) (by decide)
  exact ⟨h1 "nft" "near" [] none, (h2 "nft" "near" [] none hmag).2,
         h3 _ 100 (by decide) (by decide)⟩
